import Mathlib

/-!
Verification of the Guru error-handling and reporting system (guru.cpp / guru.h).

The development shallowly embeds the failure-escalation engine: the log sink
with consecutive-duplicate suppression, the cascade detector (weighted
pressure within a 30-second window), the halt path with its stack-trace
drain and re-entrancy flag, the signal bridge, and the syslog open/close
lifecycle.  Process-wide mutable globals of the C++ source become fields of
an explicit state record; wall-clock time becomes a rational-number
parameter passed to the operations that read the clock.

Severities are the C++ int constants GURU_INFO .. GURU_STACK; an arbitrary
Int models an out-of-range severity.  A log line is modelled as its severity
tag plus undecorated message text (the timestamp decoration of the physical
file line carries no information the claims mention; deduplication in the
source compares the undecorated text).
-/

namespace Guru

def GURU_INFO : Int := 0
def GURU_WARN : Int := 1
def GURU_ERROR : Int := 2
def GURU_CRITICAL : Int := 3
def GURU_STACK : Int := 4

def SIGABRT : Int := 6
def SIGILL : Int := 4
def SIGFPE : Int := 8
def SIGSEGV : Int := 11

/-- One line of the system log: the severity it was logged at and the
message text (undecorated; the source prepends a timestamp and tag when
writing the physical line, but deduplicates on the raw text). -/
structure LogLine where
  ty : Int
  msg : String
deriving DecidableEq, Repr

/-- Outcome of the halt path: either the process exited at once after the
"die peacefully" warning (the dead_already branch), or the message was
stored and control was handed to the halt presenter. -/
inductive HaltOutcome where
  | diedPeacefully
  | presenting (msg : String)
deriving DecidableEq, Repr

/-- The process-wide globals of guru.cpp, plus two bookkeeping fields:
control_lost records that a call to halt was made (halt never returns to
its caller: every configuration ends in exit or in the blocking presenter
loop), and halted records the outcome of the most recent halt. -/
structure GuruState where
  cascade_count : Nat
  cascade_failure : Bool
  cascade_timer : ℚ
  dead_already : Bool
  fully_active : Bool
  last_log_message : String
  message : String
  syslog_open : Bool
  syslog_lines : List LogLine
  stack_funcs : List String
  control_lost : Bool
  halted : Option HaltOutcome
deriving DecidableEq, Repr

/-- Globals at program start (static initialisation in guru.cpp). -/
def initState : GuruState :=
  { cascade_count := 0
    cascade_failure := false
    cascade_timer := 0
    dead_already := false
    fully_active := false
    last_log_message := ""
    message := ""
    syslog_open := false
    syslog_lines := []
    stack_funcs := []
    control_lost := false
    halted := none }

/-- guru::log.  Early return if the sink is closed or the text equals the
previously logged text; otherwise remember the text and append the line.
The comparison uses only the message text, never the severity. -/
def logG (s : GuruState) (msg : String) (ty : Int) : GuruState :=
  if s.syslog_open = false then s
  else if msg = s.last_log_message then s
  else { s with last_log_message := msg
                syslog_lines := s.syslog_lines ++ [⟨ty, msg⟩] }

/-- The weight switch in guru::nonfatal: CASCADE_WEIGHT_WARNING = 1,
CASCADE_WEIGHT_ERROR = 2, CASCADE_WEIGHT_CRITICAL = 4, default 0. -/
def cascadeWeight (ty : Int) : Nat :=
  if ty = GURU_WARN then 1
  else if ty = GURU_ERROR then 2
  else if ty = GURU_CRITICAL then 4
  else 0

/-- The drain loop inside guru::halt.  The list argument mirrors the global
StackTrace::funcs stack (head = most recently pushed) and is kept equal to
s.stack_funcs at every call.  Each iteration logs
"(size - 1): top" at GURU_STACK severity, then pops only if more than one
frame remains; with a single frame it breaks, leaving the root in place. -/
def drainLoop : List String → GuruState → GuruState
  | [], s => s
  | f :: rest, s =>
    let s1 := logG s (Nat.repr rest.length ++ ": " ++ f) GURU_STACK
    if rest.isEmpty then s1
    else drainLoop rest { s1 with stack_funcs := rest }

/-- The stack-trace section of guru::halt: nothing at all when the shadow
stack is empty, otherwise a header line then the drain loop. -/
def drainStack (s : GuruState) : GuruState :=
  if s.stack_funcs.isEmpty then s
  else drainLoop s.stack_funcs (logG s "Stack trace follows:" GURU_STACK)

/-- guru::halt.  Logs the banner and the error at GURU_CRITICAL, drains the
stack shadow, then branches on dead_already: if set, logs the peaceful-death
warning and exits; otherwise stores the message and hands off to the halt
presenter.  Note the source never assigns dead_already anywhere.  halt never
returns, so control_lost is set in both branches. -/
def halt (s : GuruState) (error : String) : GuruState :=
  let s1 := logG s "Software Failure, Halting Execution" GURU_CRITICAL
  let s2 := logG s1 error GURU_CRITICAL
  let s3 := drainStack s2
  if s3.dead_already then
    let s4 := logG s3 "Detected cleanup in process, attempting to die peacefully." GURU_WARN
    { s4 with control_lost := true, halted := some HaltOutcome.diedPeacefully }
  else
    { s3 with message := error
              control_lost := true
              halted := some (HaltOutcome.presenting error) }

/-- The fixed message of the default branch of the severity switch in
guru::nonfatal. -/
def invalidSeverityMsg : String := "Nonfatal error reported with incorrect severity specified."

/-- The recursive call made by the default branch of guru::nonfatal,
unrolled: it is guru::nonfatal applied to (invalidSeverityMsg, GURU_WARN),
whose own weight is 1, so its default branch never fires and the recursion
is depth one.  The lemma nonfatal_unroll below checks the unrolling is
exact. -/
def nonfatalWarn (s : GuruState) (now : ℚ) : GuruState :=
  if s.cascade_failure then s
  else if s.control_lost then s
  else
    let s2 := logG s invalidSeverityMsg GURU_WARN
    if now - s2.cascade_timer ≤ 30 then
      let s3 := { s2 with cascade_count := s2.cascade_count + 1 }
      if s3.cascade_count > 20 then
        halt { s3 with cascade_failure := true } "Cascade failure detected!"
      else s3
    else { s2 with cascade_timer := now, cascade_count := 0 }

/-- guru::nonfatal.  Immediate return when a cascade failure is already in
progress; the severity switch computes the weight, re-routing an unknown
severity through a recursive warning report; the message is then logged, and
for a nonzero weight the cascade detector runs: within the 30-second window
the weight accumulates and above the threshold of 20 the cascade trips and
halt is invoked; outside the window the timer restarts and the count resets
to zero, discarding the incoming weight.  The control_lost guard after the
recursive call models that halt (invoked when the recursive warning itself
trips the cascade) never returns to this frame. -/
def nonfatal (s : GuruState) (error : String) (ty : Int) (now : ℚ) : GuruState :=
  if s.cascade_failure then s
  else
    let w := cascadeWeight ty
    let s1 := if w = 0 then nonfatalWarn s now else s
    if s1.control_lost then s1
    else
      let s2 := logG s1 error ty
      if w ≠ 0 then
        if now - s2.cascade_timer ≤ 30 then
          let s3 := { s2 with cascade_count := s2.cascade_count + w }
          if s3.cascade_count > 20 then
            halt { s3 with cascade_failure := true } "Cascade failure detected!"
          else s3
        else { s2 with cascade_timer := now, cascade_count := 0 }
      else s2

/-- guru::close_syslog: two fixed farewell lines, then the handle closes. -/
def close_syslog (s : GuruState) : GuruState :=
  let s1 := logG s "Guru system shutting down." GURU_INFO
  let s2 := logG s1 "The rest is silence." GURU_INFO
  { s2 with syslog_open := false }

/-- guru::open_syslog: removes and recreates the file (fresh empty sink),
logs the online message, hooks the four signals (assumed to succeed) and
starts the cascade timer at the current time. -/
def open_syslog (s : GuruState) (now : ℚ) : GuruState :=
  let s1 := { s with syslog_open := true, syslog_lines := [] }
  let s2 := logG s1 "Guru error-handling system is online. Hooking signals..." GURU_INFO
  { s2 with cascade_timer := now }

/-- guru::console_ready. -/
def console_ready (s : GuruState) (ready : Bool) : GuruState :=
  { s with fully_active := ready }

/-- The switch in guru::intercept_signal mapping a signal number to its
fixed phrase; unknown numbers take the default branch. -/
def sigPhrase (sig : Int) : String :=
  if sig = SIGABRT then "Software requested abort."
  else if sig = SIGFPE then "Floating-point exception."
  else if sig = SIGILL then "Illegal instruction."
  else if sig = SIGSEGV then "Segmentation fault."
  else "Intercepted unknown signal."

/-- guru::intercept_signal as a state transition: after disabling the four
signals (no observable effect on the modelled state) it calls halt with the
phrase for the received signal. -/
def intercept_signal (s : GuruState) (sig : Int) : GuruState :=
  halt s (sigPhrase sig)

/-- The primitive operations guru::intercept_signal performs, in program
order, for reasoning about their sequencing: the switch that computes the
phrase, the four signal(sig, SIG_IGN) calls, and the final call to halt. -/
inductive SigAction where
  | setPhrase (phrase : String)
  | ignoreSig (sig : Int)
  | invokeHalt (phrase : String)
deriving DecidableEq, Repr

/-- The action sequence of guru::intercept_signal, read off the source:
first the switch assigns sig_type, then the four signals are set to
SIG_IGN in the order SIGABRT, SIGSEGV, SIGILL, SIGFPE, then halt runs. -/
def interceptActions (sig : Int) : List SigAction :=
  [ SigAction.setPhrase (sigPhrase sig)
  , SigAction.ignoreSig SIGABRT
  , SigAction.ignoreSig SIGSEGV
  , SigAction.ignoreSig SIGILL
  , SigAction.ignoreSig SIGFPE
  , SigAction.invokeHalt (sigPhrase sig) ]

/-- All entry points of the guru namespace, as events for whole-lifetime
statements. -/
inductive GuruOp where
  | logOp (m : String) (ty : Int)
  | nonfatalOp (m : String) (ty : Int) (t : ℚ)
  | haltOp (m : String)
  | closeOp
  | openOp (t : ℚ)
  | consoleReadyOp (b : Bool)
  | interceptOp (sig : Int)
deriving DecidableEq, Repr

def stepOp (s : GuruState) : GuruOp → GuruState
  | GuruOp.logOp m ty => logG s m ty
  | GuruOp.nonfatalOp m ty t => nonfatal s m ty t
  | GuruOp.haltOp m => halt s m
  | GuruOp.closeOp => close_syslog s
  | GuruOp.openOp t => open_syslog s t
  | GuruOp.consoleReadyOp b => console_ready s b
  | GuruOp.interceptOp sig => intercept_signal s sig

def runOps (s : GuruState) : List GuruOp → GuruState
  | [] => s
  | op :: ops => runOps (stepOp s op) ops

/-- Number of events in a run at which the cascade_failure flag flips from
false to true (a cascade being declared). -/
def cascadeTrips (s : GuruState) : List GuruOp → Nat
  | [] => 0
  | op :: ops =>
    (if s.cascade_failure = false ∧ (stepOp s op).cascade_failure = true then 1 else 0)
    + cascadeTrips (stepOp s op) ops

/-- A sequence of guru::nonfatal reports with one message and severity, at
the given clock readings. -/
def nonfatalSeq (s : GuruState) (m : String) (ty : Int) : List ℚ → GuruState
  | [] => s
  | u :: us => nonfatalSeq (nonfatal s m ty u) m ty us

/-- The log lines the drain loop emits for a given stack shadow: depth
labels rest.length down to 0, innermost frame first, at GURU_STACK. -/
def frameLines : List String → List LogLine
  | [] => []
  | f :: rest => ⟨GURU_STACK, Nat.repr rest.length ++ ": " ++ f⟩ :: frameLines rest

/-! ### Field-preservation lemmas: which globals each operation can touch -/

@[simp] theorem logG_cascade_count (s : GuruState) (m : String) (ty : Int) :
    (logG s m ty).cascade_count = s.cascade_count := by
  unfold logG
  split
  · rfl
  · split <;> rfl

@[simp] theorem logG_cascade_failure (s : GuruState) (m : String) (ty : Int) :
    (logG s m ty).cascade_failure = s.cascade_failure := by
  unfold logG
  split
  · rfl
  · split <;> rfl

@[simp] theorem logG_cascade_timer (s : GuruState) (m : String) (ty : Int) :
    (logG s m ty).cascade_timer = s.cascade_timer := by
  unfold logG
  split
  · rfl
  · split <;> rfl

@[simp] theorem logG_dead_already (s : GuruState) (m : String) (ty : Int) :
    (logG s m ty).dead_already = s.dead_already := by
  unfold logG
  split
  · rfl
  · split <;> rfl

@[simp] theorem logG_syslog_open (s : GuruState) (m : String) (ty : Int) :
    (logG s m ty).syslog_open = s.syslog_open := by
  unfold logG
  split
  · rfl
  · split <;> rfl

@[simp] theorem logG_control_lost (s : GuruState) (m : String) (ty : Int) :
    (logG s m ty).control_lost = s.control_lost := by
  unfold logG
  split
  · rfl
  · split <;> rfl

@[simp] theorem logG_halted (s : GuruState) (m : String) (ty : Int) :
    (logG s m ty).halted = s.halted := by
  unfold logG
  split
  · rfl
  · split <;> rfl

@[simp] theorem logG_stack_funcs (s : GuruState) (m : String) (ty : Int) :
    (logG s m ty).stack_funcs = s.stack_funcs := by
  unfold logG
  split
  · rfl
  · split <;> rfl

@[simp] theorem logG_fully_active (s : GuruState) (m : String) (ty : Int) :
    (logG s m ty).fully_active = s.fully_active := by
  unfold logG
  split
  · rfl
  · split <;> rfl

@[simp] theorem logG_message (s : GuruState) (m : String) (ty : Int) :
    (logG s m ty).message = s.message := by
  unfold logG
  split
  · rfl
  · split <;> rfl

/-- The drain loop touches only the sink fields and the stack shadow. -/
theorem drainLoop_pres (l : List String) : ∀ s : GuruState,
    (drainLoop l s).cascade_count = s.cascade_count ∧
    (drainLoop l s).cascade_failure = s.cascade_failure ∧
    (drainLoop l s).cascade_timer = s.cascade_timer ∧
    (drainLoop l s).dead_already = s.dead_already ∧
    (drainLoop l s).syslog_open = s.syslog_open ∧
    (drainLoop l s).control_lost = s.control_lost ∧
    (drainLoop l s).halted = s.halted ∧
    (drainLoop l s).fully_active = s.fully_active ∧
    (drainLoop l s).message = s.message := by
  induction l with
  | nil => intro s; exact ⟨rfl, rfl, rfl, rfl, rfl, rfl, rfl, rfl, rfl⟩
  | cons f rest ih =>
    intro s
    simp only [drainLoop]
    split
    · simp
    · simpa using ih _

@[simp] theorem drainStack_cascade_count (s : GuruState) :
    (drainStack s).cascade_count = s.cascade_count := by
  unfold drainStack; split; · rfl
  · simpa using (drainLoop_pres s.stack_funcs (logG s "Stack trace follows:" GURU_STACK)).1

@[simp] theorem drainStack_cascade_failure (s : GuruState) :
    (drainStack s).cascade_failure = s.cascade_failure := by
  unfold drainStack; split; · rfl
  · simpa using (drainLoop_pres s.stack_funcs (logG s "Stack trace follows:" GURU_STACK)).2.1

@[simp] theorem drainStack_cascade_timer (s : GuruState) :
    (drainStack s).cascade_timer = s.cascade_timer := by
  unfold drainStack; split; · rfl
  · simpa using (drainLoop_pres s.stack_funcs (logG s "Stack trace follows:" GURU_STACK)).2.2.1

@[simp] theorem drainStack_dead_already (s : GuruState) :
    (drainStack s).dead_already = s.dead_already := by
  unfold drainStack; split; · rfl
  · simpa using (drainLoop_pres s.stack_funcs (logG s "Stack trace follows:" GURU_STACK)).2.2.2.1

@[simp] theorem drainStack_syslog_open (s : GuruState) :
    (drainStack s).syslog_open = s.syslog_open := by
  unfold drainStack; split; · rfl
  · simpa using (drainLoop_pres s.stack_funcs (logG s "Stack trace follows:" GURU_STACK)).2.2.2.2.1

@[simp] theorem drainStack_control_lost (s : GuruState) :
    (drainStack s).control_lost = s.control_lost := by
  unfold drainStack; split; · rfl
  · simpa using (drainLoop_pres s.stack_funcs (logG s "Stack trace follows:" GURU_STACK)).2.2.2.2.2.1

@[simp] theorem drainStack_halted (s : GuruState) :
    (drainStack s).halted = s.halted := by
  unfold drainStack; split; · rfl
  · simpa using (drainLoop_pres s.stack_funcs (logG s "Stack trace follows:" GURU_STACK)).2.2.2.2.2.2.1

/-- halt never changes the cascade flag: a cascade is declared only inside
guru::nonfatal. -/
@[simp] theorem halt_cascade_failure (s : GuruState) (e : String) :
    (halt s e).cascade_failure = s.cascade_failure := by
  simp only [halt]
  split <;> simp

@[simp] theorem halt_cascade_count (s : GuruState) (e : String) :
    (halt s e).cascade_count = s.cascade_count := by
  simp only [halt]
  split <;> simp

@[simp] theorem halt_cascade_timer (s : GuruState) (e : String) :
    (halt s e).cascade_timer = s.cascade_timer := by
  simp only [halt]
  split <;> simp

/-- The source never assigns dead_already: it is false at static
initialisation and every operation leaves it unchanged, so halt preserves
it in particular. -/
@[simp] theorem halt_dead_already (s : GuruState) (e : String) :
    (halt s e).dead_already = s.dead_already := by
  simp only [halt]
  split <;> simp

@[simp] theorem halt_control_lost (s : GuruState) (e : String) :
    (halt s e).control_lost = true := by
  simp only [halt]
  split <;> rfl

/-- With dead_already clear, halt stores the message and hands off to the
presenter. -/
theorem halt_presents (s : GuruState) (e : String) (h : s.dead_already = false) :
    (halt s e).halted = some (HaltOutcome.presenting e) := by
  simp only [halt]
  split
  · next hd => rw [drainStack_dead_already, logG_dead_already, logG_dead_already, h] at hd; cases hd
  · rfl

/-! ### Behaviour of guru::nonfatal, case by case -/

/-- Once a cascade failure is declared, guru::nonfatal returns at its very
first statement: the state is untouched and nothing is logged. -/
theorem nonfatal_tripped (s : GuruState) (m : String) (ty : Int) (now : ℚ)
    (h : s.cascade_failure = true) : nonfatal s m ty now = s := by
  simp [nonfatal, h]

/-- The depth-one unrolling used for the default severity branch is exact:
nonfatalWarn is literally guru::nonfatal at (invalidSeverityMsg, GURU_WARN). -/
theorem nonfatal_unroll (s : GuruState) (now : ℚ) :
    nonfatal s invalidSeverityMsg GURU_WARN now = nonfatalWarn s now := by
  simp only [nonfatal, nonfatalWarn]
  norm_num [cascadeWeight]

/-- A weighted report inside the 30-second window that stays at or below
the threshold: the message is logged and the weight accumulates. -/
theorem nonfatal_acc (s : GuruState) (m : String) (ty : Int) (now : ℚ)
    (hw0 : cascadeWeight ty ≠ 0)
    (hf : s.cascade_failure = false) (hc : s.control_lost = false)
    (hwin : now - s.cascade_timer ≤ 30)
    (hle : s.cascade_count + cascadeWeight ty ≤ 20) :
    nonfatal s m ty now
      = { logG s m ty with cascade_count := s.cascade_count + cascadeWeight ty } := by
  have hng : ¬ (s.cascade_count + cascadeWeight ty > 20) := by omega
  simp [nonfatal, hw0, hf, hc, hwin, hng]

/-- A weighted report inside the window that pushes the pressure above the
threshold of 20: the cascade flag is set and halt is invoked. -/
theorem nonfatal_trip (s : GuruState) (m : String) (ty : Int) (now : ℚ)
    (hw0 : cascadeWeight ty ≠ 0)
    (hf : s.cascade_failure = false) (hc : s.control_lost = false)
    (hwin : now - s.cascade_timer ≤ 30)
    (hgt : s.cascade_count + cascadeWeight ty > 20) :
    nonfatal s m ty now
      = halt { logG s m ty with cascade_count := s.cascade_count + cascadeWeight ty,
                                cascade_failure := true }
             "Cascade failure detected!" := by
  simp [nonfatal, hw0, hf, hc, hwin, hgt]

/-- A weighted report arriving strictly more than 30 seconds after the
window start: the window restarts at the current time and the pressure goes
to zero, discarding the incoming weight. -/
theorem nonfatal_reset (s : GuruState) (m : String) (ty : Int) (now : ℚ)
    (hw0 : cascadeWeight ty ≠ 0)
    (hf : s.cascade_failure = false) (hc : s.control_lost = false)
    (hwin : ¬ (now - s.cascade_timer ≤ 30)) :
    nonfatal s m ty now
      = { logG s m ty with cascade_timer := now, cascade_count := 0 } := by
  simp [nonfatal, hw0, hf, hc, hwin]

/-- Observable outcome of a tripping report when no halt was in progress:
the flag is set and the presenter is handed the cascade message. -/
theorem nonfatal_trip_result (s : GuruState) (m : String) (ty : Int) (now : ℚ)
    (hw0 : cascadeWeight ty ≠ 0)
    (hf : s.cascade_failure = false) (hc : s.control_lost = false)
    (hwin : now - s.cascade_timer ≤ 30)
    (hgt : s.cascade_count + cascadeWeight ty > 20)
    (hd : s.dead_already = false) :
    (nonfatal s m ty now).cascade_failure = true ∧
    (nonfatal s m ty now).halted = some (HaltOutcome.presenting "Cascade failure detected!") ∧
    (nonfatal s m ty now).control_lost = true := by
  rw [nonfatal_trip s m ty now hw0 hf hc hwin hgt]
  refine ⟨by simp, ?_, by simp⟩
  rw [halt_presents]
  simp [hd]

/-! ### Sequences of reports -/

theorem nonfatalSeq_append (s : GuruState) (m : String) (ty : Int) (l1 l2 : List ℚ) :
    nonfatalSeq s m ty (l1 ++ l2) = nonfatalSeq (nonfatalSeq s m ty l1) m ty l2 := by
  induction l1 generalizing s with
  | nil => rfl
  | cons u us ih => simp [nonfatalSeq, ih]

/-- Accumulation over a whole in-window sequence whose total weight stays
at or below the threshold: pressure is exactly the weighted report count,
the flag never fires and the window never moves. -/
theorem nonfatalSeq_acc (m : String) (ty : Int)
    (hw0 : cascadeWeight ty ≠ 0) :
    ∀ (ts : List ℚ) (s : GuruState),
    s.cascade_failure = false → s.control_lost = false →
    (∀ u ∈ ts, u - s.cascade_timer ≤ 30) →
    s.cascade_count + cascadeWeight ty * ts.length ≤ 20 →
    (nonfatalSeq s m ty ts).cascade_failure = false ∧
    (nonfatalSeq s m ty ts).control_lost = false ∧
    (nonfatalSeq s m ty ts).cascade_count
      = s.cascade_count + cascadeWeight ty * ts.length ∧
    (nonfatalSeq s m ty ts).cascade_timer = s.cascade_timer ∧
    (nonfatalSeq s m ty ts).dead_already = s.dead_already ∧
    (nonfatalSeq s m ty ts).halted = s.halted := by
  intro ts
  induction ts with
  | nil => intro s hf hc _ _; exact ⟨hf, hc, by simp [nonfatalSeq], rfl, rfl, rfl⟩
  | cons u us ih =>
    intro s hf hc hwin hle
    obtain ⟨A, hA⟩ : ∃ A, cascadeWeight ty * us.length = A := ⟨_, rfl⟩
    rw [List.length_cons, Nat.mul_succ, hA] at hle
    have hle1 : s.cascade_count + cascadeWeight ty ≤ 20 := by omega
    have hstep := nonfatal_acc s m ty u hw0 hf hc (hwin u (by simp)) hle1
    have hrec := ih { logG s m ty with cascade_count := s.cascade_count + cascadeWeight ty }
      (by simp [hf]) (by simp [hc])
      (by intro v hv; simpa using hwin v (by simp [hv]))
      (by simpa [hA] using by omega :
        ({ logG s m ty with
            cascade_count := s.cascade_count + cascadeWeight ty } : GuruState).cascade_count
          + cascadeWeight ty * us.length ≤ 20)
    simp only [nonfatalSeq, hstep]
    refine ⟨hrec.1, hrec.2.1, ?_, ?_, ?_, ?_⟩
    · rw [hrec.2.2.1]; simp [List.length_cons, Nat.mul_succ]; omega
    · rw [hrec.2.2.2.1]; simp
    · rw [hrec.2.2.2.2.1]; simp
    · rw [hrec.2.2.2.2.2]; simp

/-! ### Whole-lifetime facts about the cascade flag -/

/-- No operation of the guru namespace ever clears cascade_failure. -/
theorem stepOp_failure_mono (s : GuruState) (op : GuruOp)
    (h : s.cascade_failure = true) : (stepOp s op).cascade_failure = true := by
  cases op <;>
    simp [stepOp, intercept_signal, close_syslog, open_syslog, console_ready,
      nonfatal_tripped, h]

theorem runOps_failure_mono (ops : List GuruOp) : ∀ s : GuruState,
    s.cascade_failure = true → (runOps s ops).cascade_failure = true := by
  induction ops with
  | nil => intro s h; exact h
  | cons op ops ih =>
    intro s h
    exact ih _ (stepOp_failure_mono s op h)

theorem cascadeTrips_of_tripped (ops : List GuruOp) : ∀ s : GuruState,
    s.cascade_failure = true → cascadeTrips s ops = 0 := by
  induction ops with
  | nil => intro s _; rfl
  | cons op ops ih =>
    intro s h
    simp [cascadeTrips, h, ih _ (stepOp_failure_mono s op h)]

/-- Over any event sequence, the cascade flag flips at most once. -/
theorem cascadeTrips_le_one (ops : List GuruOp) : ∀ s : GuruState,
    cascadeTrips s ops ≤ 1 := by
  induction ops with
  | nil => intro s; simp [cascadeTrips]
  | cons op ops ih =>
    intro s
    by_cases hflip : s.cascade_failure = false ∧ (stepOp s op).cascade_failure = true
    · simp [cascadeTrips, hflip, cascadeTrips_of_tripped ops _ hflip.2]
    · simp only [cascadeTrips, if_neg hflip, Nat.zero_add]
      exact ih _

/-! ### Decimal rendering facts

The drain loop renders depth labels with std::to_string, modelled by
Nat.repr.  To show the log deduplication never suppresses a stack-trace
line we need: every character of a decimal rendering is a digit, the
renderings of k and k - 1 differ, and a line starting with a digit differs
from the fixed header. -/

theorem repr_data (n : Nat) : (Nat.repr n).data = Nat.toDigits 10 n := rfl

theorem digitChar_isDigit : ∀ d : Nat, d < 10 → (Nat.digitChar d).isDigit = true := by
  decide

theorem digitChar_inj10 : ∀ d1 : Nat, d1 < 10 → ∀ d2 : Nat, d2 < 10 →
    Nat.digitChar d1 = Nat.digitChar d2 → d1 = d2 := by
  decide

theorem toDigitsCore_digits (fuel : Nat) : ∀ (n : Nat) (acc : List Char),
    (∀ c ∈ acc, c.isDigit = true) →
    ∀ c ∈ Nat.toDigitsCore 10 fuel n acc, c.isDigit = true := by
  induction fuel with
  | zero => intro n acc hacc c hc; exact hacc c hc
  | succ fuel ih =>
    intro n acc hacc c hc
    have hd : (Nat.digitChar (n % 10)).isDigit = true :=
      digitChar_isDigit _ (Nat.mod_lt _ (by norm_num))
    have hacc2 : ∀ x ∈ Nat.digitChar (n % 10) :: acc, x.isDigit = true := by
      intro x hx
      rcases List.mem_cons.mp hx with h | h
      · rw [h]; exact hd
      · exact hacc x h
    simp only [Nat.toDigitsCore] at hc
    split at hc
    · exact hacc2 c hc
    · exact ih (n / 10) (Nat.digitChar (n % 10) :: acc) hacc2 c hc

theorem repr_data_digits (n : Nat) : ∀ c ∈ (Nat.repr n).data, c.isDigit = true := by
  rw [repr_data]
  exact toDigitsCore_digits (n + 1) n [] (by intro c hc; cases hc)

theorem toDigitsCore_acc (fuel : Nat) : ∀ (n : Nat) (acc : List Char),
    Nat.toDigitsCore 10 fuel n acc = Nat.toDigitsCore 10 fuel n [] ++ acc := by
  induction fuel with
  | zero => intro n acc; rfl
  | succ fuel ih =>
    intro n acc
    by_cases h : n / 10 = 0
    · simp [Nat.toDigitsCore, h]
    · simp only [Nat.toDigitsCore, if_neg h]
      rw [ih (n / 10) (Nat.digitChar (n % 10) :: acc),
          ih (n / 10) (Nat.digitChar (n % 10) :: []), List.append_assoc]
      rfl

theorem toDigits_getLast (n : Nat) :
    (Nat.toDigits 10 n).getLast? = some (Nat.digitChar (n % 10)) := by
  unfold Nat.toDigits
  simp only [Nat.toDigitsCore]
  split
  · rfl
  · rw [toDigitsCore_acc]
    exact List.getLast?_concat _

theorem repr_data_ne_nil (n : Nat) : (Nat.repr n).data ≠ [] := by
  intro hnil
  have h := toDigits_getLast n
  rw [← repr_data, hnil] at h
  cases h

theorem repr_ne_pred (k : Nat) (hk : 1 ≤ k) : Nat.repr k ≠ Nat.repr (k - 1) := by
  intro h
  have hdig : Nat.digitChar (k % 10) = Nat.digitChar ((k - 1) % 10) := by
    have h1 := toDigits_getLast k
    have h2 := toDigits_getLast (k - 1)
    rw [← repr_data, h, repr_data, h2] at h1
    injection h1 with hx
    exact hx.symm
  have hmod : k % 10 = (k - 1) % 10 :=
    digitChar_inj10 _ (Nat.mod_lt _ (by norm_num)) _ (Nat.mod_lt _ (by norm_num)) hdig
  omega

theorem digitRun_append_inj : ∀ (a : List Char) (b x y : List Char),
    (∀ c ∈ a, c.isDigit = true) → (∀ c ∈ b, c.isDigit = true) →
    a ++ ':' :: x = b ++ ':' :: y → a = b ∧ x = y := by
  intro a
  induction a with
  | nil =>
    intro b x y _ hb h
    cases b with
    | nil => simpa using h
    | cons c b2 =>
      exfalso
      simp only [List.nil_append, List.cons_append, List.cons.injEq] at h
      have hcd := hb c (by simp)
      rw [← h.1] at hcd
      simp [Char.isDigit] at hcd
  | cons c a2 ih =>
    intro b x y ha hb h
    cases b with
    | nil =>
      exfalso
      simp only [List.cons_append, List.nil_append, List.cons.injEq] at h
      have hcd := ha c (by simp)
      rw [h.1] at hcd
      simp [Char.isDigit] at hcd
    | cons d b2 =>
      simp only [List.cons_append, List.cons.injEq] at h
      obtain ⟨h1, h2⟩ :=
        ih b2 x y (fun u hu => ha u (by simp [hu])) (fun u hu => hb u (by simp [hu])) h.2
      exact ⟨by rw [h.1, h1], h2⟩

/-- Two consecutive drain-loop lines can never have equal text: their depth
labels differ. -/
theorem frameLine_adjacent_ne (k : Nat) (hk : 1 ≤ k) (f0 f1 : String) :
    Nat.repr k ++ ": " ++ f0 ≠ Nat.repr (k - 1) ++ ": " ++ f1 := by
  intro h
  have hdata := congrArg String.data h
  simp only [String.data_append, List.append_assoc] at hdata
  simp only [List.cons_append, List.nil_append] at hdata
  obtain ⟨h1, _⟩ :=
    digitRun_append_inj _ _ _ _ (repr_data_digits k) (repr_data_digits (k - 1)) hdata
  have : Nat.repr k = Nat.repr (k - 1) := by
    cases hr1 : Nat.repr k with
    | mk d1 =>
      cases hr2 : Nat.repr (k - 1) with
      | mk d2 =>
        rw [hr1, hr2] at h1
        simp at h1
        rw [h1]
  exact repr_ne_pred k hk this

/-- The drain header is not a drain line: lines start with a digit. -/
theorem header_ne_frameLine (k : Nat) (f : String) :
    ("Stack trace follows:" : String) ≠ Nat.repr k ++ ": " ++ f := by
  intro h
  obtain ⟨c, rest, hcons⟩ : ∃ c rest, (Nat.repr k).data = c :: rest := by
    cases hh : (Nat.repr k).data with
    | nil => exact absurd hh (repr_data_ne_nil k)
    | cons c rest => exact ⟨c, rest, rfl⟩
  have hdata := congrArg String.data h
  simp only [String.data_append, List.append_assoc, hcons] at hdata
  simp only [List.cons_append, List.nil_append] at hdata
  have hS : 'S' = c := by
    injection hdata
  have hcd : c.isDigit = true :=
    repr_data_digits k c (by rw [hcons]; exact List.mem_cons_self _ _)
  rw [← hS] at hcd
  simp [Char.isDigit] at hcd

/-! ### Exact behaviour of the stack-trace drain -/

theorem frameLines_length (l : List String) : (frameLines l).length = l.length := by
  induction l with
  | nil => rfl
  | cons f rest ih => simp [frameLines, ih]

/-- Running the drain loop on a nonempty stack shadow appends exactly one
line per frame (deduplication can never fire: consecutive lines carry
distinct depth labels) and pops everything but the root frame. -/
theorem drainLoop_run (l : List String) : ∀ s : GuruState,
    s.stack_funcs = l → s.syslog_open = true →
    (∀ f0 rest0, l = f0 :: rest0 →
      s.last_log_message ≠ Nat.repr rest0.length ++ ": " ++ f0) →
    (drainLoop l s).syslog_lines = s.syslog_lines ++ frameLines l ∧
    (∀ r, l.getLast? = some r → (drainLoop l s).stack_funcs = [r]) := by
  induction l with
  | nil =>
    intro s _ _ _
    exact ⟨by simp [drainLoop, frameLines], by intro r hr; cases hr⟩
  | cons f rest ih =>
    intro s hs hopen hlast
    have happ : logG s (Nat.repr rest.length ++ ": " ++ f) GURU_STACK
        = { s with last_log_message := Nat.repr rest.length ++ ": " ++ f,
                   syslog_lines := s.syslog_lines
                     ++ [⟨GURU_STACK, Nat.repr rest.length ++ ": " ++ f⟩] } := by
      unfold logG
      rw [if_neg (by simp [hopen]), if_neg (fun hx => hlast f rest rfl hx.symm)]
    cases rest with
    | nil =>
      refine ⟨?_, ?_⟩
      · simp only [drainLoop, List.isEmpty_nil, if_pos, happ]
        simp [frameLines]
      · intro r hr
        have hr2 : f = r := by simpa using hr
        simp only [drainLoop, List.isEmpty_nil, if_pos, happ]
        rw [hs, hr2]
    | cons f2 rest2 =>
      have happ2 : ({ logG s (Nat.repr (f2 :: rest2).length ++ ": " ++ f) GURU_STACK
            with stack_funcs := f2 :: rest2 } : GuruState)
          = { s with last_log_message := Nat.repr (f2 :: rest2).length ++ ": " ++ f,
                     syslog_lines := s.syslog_lines
                       ++ [⟨GURU_STACK, Nat.repr (f2 :: rest2).length ++ ": " ++ f⟩],
                     stack_funcs := f2 :: rest2 } := by
        rw [happ]
      have hstep := ih ({ s with
          last_log_message := Nat.repr (f2 :: rest2).length ++ ": " ++ f,
          syslog_lines := s.syslog_lines
            ++ [⟨GURU_STACK, Nat.repr (f2 :: rest2).length ++ ": " ++ f⟩],
          stack_funcs := f2 :: rest2 }) rfl hopen
        (by
          intro g0 grest0 hg hx
          injection hg with hg1 hg2
          subst hg1
          subst hg2
          refine frameLine_adjacent_ne (rest2.length + 1) (by omega) f f2 ?_
          simpa using hx)
      have hloop : drainLoop (f :: f2 :: rest2) s
          = drainLoop (f2 :: rest2) ({ s with
              last_log_message := Nat.repr (f2 :: rest2).length ++ ": " ++ f,
              syslog_lines := s.syslog_lines
                ++ [⟨GURU_STACK, Nat.repr (f2 :: rest2).length ++ ": " ++ f⟩],
              stack_funcs := f2 :: rest2 }) := by
        simp only [drainLoop, List.isEmpty_cons, Bool.false_eq_true, if_false]
        rw [happ2]
      refine ⟨?_, ?_⟩
      · rw [hloop, hstep.1]
        simp [frameLines, List.append_assoc]
      · intro r hr
        rw [hloop]
        exact hstep.2 r (by rwa [List.getLast?_cons_cons] at hr)

/-- The whole drain section of halt on a nonempty shadow: the header line
(suppressed only if it equals the previous log text), then one line per
frame, and the root frame alone survives on the stack. -/
theorem drainStack_run (s : GuruState) (l : List String)
    (hs : s.stack_funcs = l) (hne : l ≠ []) (hopen : s.syslog_open = true) :
    (drainStack s).syslog_lines
      = s.syslog_lines
        ++ (if s.last_log_message = "Stack trace follows:" then []
            else [⟨GURU_STACK, "Stack trace follows:"⟩])
        ++ frameLines l ∧
    (∀ r, l.getLast? = some r → (drainStack s).stack_funcs = [r]) := by
  have hH : (logG s "Stack trace follows:" GURU_STACK).last_log_message
        = "Stack trace follows:"
      ∧ (logG s "Stack trace follows:" GURU_STACK).syslog_lines
        = s.syslog_lines
          ++ (if s.last_log_message = "Stack trace follows:" then []
              else [⟨GURU_STACK, "Stack trace follows:"⟩]) := by
    unfold logG
    rw [if_neg (by simp [hopen])]
    by_cases hdup : ("Stack trace follows:" : String) = s.last_log_message
    · rw [if_pos hdup, if_pos hdup.symm]
      exact ⟨hdup.symm, by simp⟩
    · rw [if_neg hdup, if_neg (fun hx => hdup hx.symm)]
      exact ⟨rfl, rfl⟩
  have hrun := drainLoop_run l (logG s "Stack trace follows:" GURU_STACK)
    (by rw [logG_stack_funcs, hs]) (by rw [logG_syslog_open, hopen])
    (by
      intro f0 rest0 _
      rw [hH.1]
      exact header_ne_frameLine rest0.length f0)
  constructor
  · unfold drainStack
    rw [if_neg (by simp [hs, hne]), hs]
    rw [hrun.1, hH.2, List.append_assoc]
  · intro r hr
    unfold drainStack
    rw [if_neg (by simp [hs, hne]), hs]
    exact hrun.2 r hr

/-! ### The invalid-severity path and trip points -/

/-- A log call on an open sink with fresh text appends exactly one line. -/
theorem logG_append (s : GuruState) (m : String) (ty : Int)
    (hopen : s.syslog_open = true) (hne : ¬ (m = s.last_log_message)) :
    logG s m ty
      = { s with last_log_message := m,
                 syslog_lines := s.syslog_lines ++ [⟨ty, m⟩] } := by
  unfold logG
  rw [if_neg (by simp [hopen]), if_neg hne]

@[simp] theorem open_syslog_cascade_timer (s : GuruState) (t : ℚ) :
    (open_syslog s t).cascade_timer = t := rfl

theorem nonfatalWarn_acc (s : GuruState) (now : ℚ)
    (hf : s.cascade_failure = false) (hc : s.control_lost = false)
    (hwin : now - s.cascade_timer ≤ 30) (hle : s.cascade_count + 1 ≤ 20) :
    nonfatalWarn s now
      = { logG s invalidSeverityMsg GURU_WARN with
            cascade_count := s.cascade_count + 1 } := by
  have hng : ¬ (s.cascade_count + 1 > 20) := by omega
  simp [nonfatalWarn, hf, hc, hwin, hng]

theorem nonfatalWarn_reset (s : GuruState) (now : ℚ)
    (hf : s.cascade_failure = false) (hc : s.control_lost = false)
    (hwin : ¬ (now - s.cascade_timer ≤ 30)) :
    nonfatalWarn s now
      = { logG s invalidSeverityMsg GURU_WARN with
            cascade_timer := now, cascade_count := 0 } := by
  simp [nonfatalWarn, hf, hc, hwin]

theorem nonfatalWarn_trip (s : GuruState) (now : ℚ)
    (hf : s.cascade_failure = false) (hc : s.control_lost = false)
    (hwin : now - s.cascade_timer ≤ 30) (hgt : s.cascade_count + 1 > 20) :
    nonfatalWarn s now
      = halt { logG s invalidSeverityMsg GURU_WARN with
                 cascade_count := s.cascade_count + 1, cascade_failure := true }
             "Cascade failure detected!" := by
  simp [nonfatalWarn, hf, hc, hwin, hgt]

/-- For an out-of-range severity (weight 0): the recursive warning report
runs first; if it halted, control never returns, otherwise the original
message is logged afterwards and the detector is never consulted for it. -/
theorem nonfatal_invalid (s : GuruState) (e : String) (ty : Int) (now : ℚ)
    (hw0 : cascadeWeight ty = 0) (hf : s.cascade_failure = false) :
    nonfatal s e ty now
      = if (nonfatalWarn s now).control_lost then nonfatalWarn s now
        else logG (nonfatalWarn s now) e ty := by
  simp [nonfatal, hf, hw0]

/-- Starting from pressure zero inside a fresh window, a weighted severity
does not trip through report n and trips exactly at report n + 1, where n
is the largest count with weight * n ≤ 20. -/
theorem cascade_trips_at (s : GuruState) (m : String) (ty : Int) (n : Nat)
    (hw0 : cascadeWeight ty ≠ 0)
    (hwn : cascadeWeight ty * n ≤ 20)
    (hwn1 : cascadeWeight ty * n + cascadeWeight ty > 20)
    (hf : s.cascade_failure = false) (hc : s.control_lost = false)
    (hd : s.dead_already = false) (h0 : s.cascade_count = 0)
    (ts : List ℚ) (hwin : ∀ u ∈ ts, u - s.cascade_timer ≤ 30) :
    (ts.length ≤ n → (nonfatalSeq s m ty ts).cascade_failure = false) ∧
    (ts.length = n + 1 →
      (nonfatalSeq s m ty ts).cascade_failure = true ∧
      (nonfatalSeq s m ty ts).halted
        = some (HaltOutcome.presenting "Cascade failure detected!")) := by
  constructor
  · intro hlen
    refine (nonfatalSeq_acc m ty hw0 ts s hf hc hwin ?_).1
    rw [h0, Nat.zero_add]
    exact le_trans (Nat.mul_le_mul_left _ hlen) hwn
  · intro hlen
    have htd : ts.take n ++ ts.drop n = ts := List.take_append_drop n ts
    have hlt : (ts.take n).length = n := by rw [List.length_take]; omega
    have hld : (ts.drop n).length = 1 := by rw [List.length_drop]; omega
    obtain ⟨u, hu⟩ := List.length_eq_one.mp hld
    have hacc := nonfatalSeq_acc m ty hw0 (ts.take n) s hf hc
      (fun v hv => hwin v (List.take_subset n ts hv))
      (by rw [h0, hlt, Nat.zero_add]; exact hwn)
    have humem : u ∈ ts := by
      refine List.drop_subset n ts ?_
      rw [hu]
      exact List.mem_singleton_self u
    have htrip := nonfatal_trip_result (nonfatalSeq s m ty (ts.take n)) m ty u hw0
      hacc.1 hacc.2.1
      (by rw [hacc.2.2.2.1]; exact hwin u humem)
      (by rw [hacc.2.2.1, h0, hlt, Nat.zero_add]; exact hwn1)
      (by rw [hacc.2.2.2.2.1]; exact hd)
    have hsplit : nonfatalSeq s m ty ts
        = nonfatal (nonfatalSeq s m ty (ts.take n)) m ty u := by
      conv_lhs => rw [← htd]
      rw [nonfatalSeq_append, hu]
      rfl
    rw [hsplit]
    exact ⟨htrip.1, htrip.2.1⟩

/-- Index form of the drain lines: the i-th emitted line is the i-th frame
from the top, labelled with depth length - 1 - i. -/
theorem frameLines_get (l : List String) : ∀ (i : Nat) (hi : i < l.length),
    (frameLines l).get ⟨i, by rw [frameLines_length]; exact hi⟩
      = ⟨GURU_STACK, Nat.repr (l.length - 1 - i) ++ ": " ++ l.get ⟨i, hi⟩⟩ := by
  induction l with
  | nil => intro i hi; cases hi
  | cons f rest ih =>
    intro i hi
    cases i with
    | zero => simp [frameLines]
    | succ j =>
      have hj : j < rest.length := by simpa using hi
      have := ih j hj
      simp only [frameLines, List.get_cons_succ, List.length_cons]
      rw [this]
      have harith : rest.length + 1 - 1 - (j + 1) = rest.length - 1 - j := by omega
      rw [harith]

/-! ### The claims -/

/-- Claim C1 (code bug): the claim says the first pass through the halt
path sets the halt-active flag (dead_already) to true before handing off to
the presenter, so that a second fatal report logs the dying-peacefully
warning and terminates without a second notice.  The source never assigns
dead_already: after a first halt the flag is still false, and a second
fatal report (e.g. a signal during presentation) runs the whole halt path
again and hands a second notice to the presenter; the dying-peacefully line
is never logged. -/
theorem C1_dead_already_never_set :
    (halt (open_syslog initState 0) "First failure.").dead_already = false ∧
    (halt (halt (open_syslog initState 0) "First failure.") "Second failure.").halted
      = some (HaltOutcome.presenting "Second failure.") ∧
    (⟨GURU_WARN, "Detected cleanup in process, attempting to die peacefully."⟩ : LogLine)
      ∉ (halt (halt (open_syslog initState 0) "First failure.") "Second failure.").syslog_lines ∧
    (∀ (s : GuruState) (e : String), (halt s e).dead_already = s.dead_already) := by
  refine ⟨by decide, by decide, by decide, ?_⟩
  intro s e
  exact halt_dead_already s e

/-- Claim C2: from a fresh cascade window (pressure 0, window just
started), with all reports inside 30 seconds of the window start and no
cascade declared, report_nonfatal declares a cascade (and invokes the fatal
halt with "Cascade failure detected!") exactly at the 21st consecutive
Warning, the 11th consecutive Error, or the 6th consecutive Critical, and
not before. -/
theorem C2_cascade_trip_points (s : GuruState) (m : String)
    (hf : s.cascade_failure = false) (hc : s.control_lost = false)
    (hd : s.dead_already = false) (h0 : s.cascade_count = 0)
    (ts : List ℚ) (hwin : ∀ u ∈ ts, u - s.cascade_timer ≤ 30) :
    (ts.length ≤ 20 → (nonfatalSeq s m GURU_WARN ts).cascade_failure = false) ∧
    (ts.length = 21 →
      (nonfatalSeq s m GURU_WARN ts).cascade_failure = true ∧
      (nonfatalSeq s m GURU_WARN ts).halted
        = some (HaltOutcome.presenting "Cascade failure detected!")) ∧
    (ts.length ≤ 10 → (nonfatalSeq s m GURU_ERROR ts).cascade_failure = false) ∧
    (ts.length = 11 →
      (nonfatalSeq s m GURU_ERROR ts).cascade_failure = true ∧
      (nonfatalSeq s m GURU_ERROR ts).halted
        = some (HaltOutcome.presenting "Cascade failure detected!")) ∧
    (ts.length ≤ 5 → (nonfatalSeq s m GURU_CRITICAL ts).cascade_failure = false) ∧
    (ts.length = 6 →
      (nonfatalSeq s m GURU_CRITICAL ts).cascade_failure = true ∧
      (nonfatalSeq s m GURU_CRITICAL ts).halted
        = some (HaltOutcome.presenting "Cascade failure detected!")) := by
  have hW := cascade_trips_at s m GURU_WARN 20 (by decide) (by decide) (by decide)
    hf hc hd h0 ts hwin
  have hE := cascade_trips_at s m GURU_ERROR 10 (by decide) (by decide) (by decide)
    hf hc hd h0 ts hwin
  have hC := cascade_trips_at s m GURU_CRITICAL 5 (by decide) (by decide) (by decide)
    hf hc hd h0 ts hwin
  exact ⟨hW.1, hW.2, hE.1, hE.2, hC.1, hC.2⟩

theorem C2_cascade_trip_points_witness :
    (nonfatalSeq (open_syslog initState 0) "err" GURU_WARN
        (List.replicate 20 (0 : ℚ))).cascade_failure = false ∧
    (nonfatalSeq (open_syslog initState 0) "err" GURU_WARN
        (List.replicate 21 (0 : ℚ))).cascade_failure = true ∧
    (nonfatalSeq (open_syslog initState 0) "err" GURU_CRITICAL
        (List.replicate 6 (0 : ℚ))).halted
      = some (HaltOutcome.presenting "Cascade failure detected!") := by
  have hall : ∀ n : Nat, ∀ u ∈ List.replicate n (0 : ℚ),
      u - (open_syslog initState 0).cascade_timer ≤ 30 := by
    intro n u hu
    rw [List.eq_of_mem_replicate hu, open_syslog_cascade_timer]
    norm_num
  have h20 := C2_cascade_trip_points (open_syslog initState 0) "err" rfl rfl rfl rfl
    (List.replicate 20 (0 : ℚ)) (hall 20)
  have h21 := C2_cascade_trip_points (open_syslog initState 0) "err" rfl rfl rfl rfl
    (List.replicate 21 (0 : ℚ)) (hall 21)
  have h6 := C2_cascade_trip_points (open_syslog initState 0) "err" rfl rfl rfl rfl
    (List.replicate 6 (0 : ℚ)) (hall 6)
  exact ⟨h20.1 (by decide), (h21.2.1 (by decide)).1, (h6.2.2.2.2.2 (by decide)).2⟩

/-- Claim C3: when a weighted report arrives more than 30 seconds after the
previous weighted report (which itself is at or after the window start),
the pressure resets to zero, the window restarts at the current time, and
the incoming weight is discarded by the reset. -/
theorem C3_window_reset (s : GuruState) (m : String) (ty : Int) (tprev now : ℚ)
    (hw0 : cascadeWeight ty ≠ 0)
    (hf : s.cascade_failure = false) (hc : s.control_lost = false)
    (hprev : s.cascade_timer ≤ tprev) (hgap : now - tprev > 30) :
    (nonfatal s m ty now).cascade_count = 0 ∧
    (nonfatal s m ty now).cascade_timer = now ∧
    (nonfatal s m ty now).cascade_failure = false ∧
    (nonfatal s m ty now).halted = s.halted := by
  have hwin : ¬ (now - s.cascade_timer ≤ 30) := by
    intro h
    have : now - tprev ≤ 30 := by linarith
    linarith
  rw [nonfatal_reset s m ty now hw0 hf hc hwin]
  exact ⟨rfl, rfl, by simp [hf], by simp⟩

theorem C3_window_reset_witness :
    (nonfatal (open_syslog initState 0) "err" GURU_ERROR 31).cascade_count = 0 ∧
    (nonfatal (open_syslog initState 0) "err" GURU_ERROR 31).cascade_timer = 31 := by
  have h := C3_window_reset (open_syslog initState 0) "err" GURU_ERROR 0 31
    (by decide) rfl rfl (le_of_eq (open_syslog_cascade_timer initState 0)) (by norm_num)
  exact ⟨h.1, h.2.1⟩

/-- Claim C4: once a cascade is declared the flag never becomes false again
for the rest of the process lifetime, at most one cascade-declared fatal
halt is ever triggered, and every later report_nonfatal call returns
immediately, leaving the state (log included) untouched. -/
theorem C4_tripped_permanent :
    (∀ (s : GuruState) (m : String) (ty : Int) (now : ℚ),
      s.cascade_failure = true → nonfatal s m ty now = s) ∧
    (∀ (s : GuruState) (ops : List GuruOp),
      s.cascade_failure = true → (runOps s ops).cascade_failure = true) ∧
    (∀ (s : GuruState) (ops : List GuruOp), cascadeTrips s ops ≤ 1) :=
  ⟨nonfatal_tripped,
   fun s ops h => runOps_failure_mono ops s h,
   fun s ops => cascadeTrips_le_one ops s⟩

theorem C4_tripped_permanent_witness :
    nonfatal { initState with cascade_failure := true, syslog_open := true } "x" GURU_WARN 0
      = { initState with cascade_failure := true, syslog_open := true } ∧
    (runOps { initState with cascade_failure := true, syslog_open := true }
        [GuruOp.nonfatalOp "x" GURU_WARN 0, GuruOp.logOp "y" GURU_INFO]).cascade_failure
      = true ∧
    cascadeTrips initState [GuruOp.nonfatalOp "x" GURU_WARN 0] ≤ 1 :=
  ⟨C4_tripped_permanent.1 _ "x" GURU_WARN 0 rfl,
   C4_tripped_permanent.2.1 _ _ rfl,
   C4_tripped_permanent.2.2 _ _⟩

/-- Claim C5: at halt time, a call-stack shadow of N ≥ 1 frames drains to
exactly N StackFrame-severity lines labelled N-1 down to 0, each formatted
"(depth): (identifier)" with the innermost frame first, every frame except
the first-pushed root is popped (the root stays on the stack), and an empty
shadow produces no trace section at all. -/
theorem C5_stack_drain (s : GuruState) (l : List String) (r : String)
    (hs : s.stack_funcs = l) (hopen : s.syslog_open = true)
    (hlast : l.getLast? = some r) :
    ((drainStack s).syslog_lines
      = s.syslog_lines
        ++ (if s.last_log_message = "Stack trace follows:" then []
            else [⟨GURU_STACK, "Stack trace follows:"⟩])
        ++ frameLines l) ∧
    (frameLines l).length = l.length ∧
    (∀ (i : Nat) (hi : i < l.length),
      (frameLines l).get ⟨i, by rw [frameLines_length]; exact hi⟩
        = ⟨GURU_STACK, Nat.repr (l.length - 1 - i) ++ ": " ++ l.get ⟨i, hi⟩⟩) ∧
    (drainStack s).stack_funcs = [r] ∧
    (∀ s2 : GuruState, s2.stack_funcs = [] → drainStack s2 = s2) := by
  have hne : l ≠ [] := by
    intro h
    rw [h] at hlast
    cases hlast
  have hrun := drainStack_run s l hs hne hopen
  refine ⟨hrun.1, frameLines_length l, frameLines_get l, hrun.2 r hlast, ?_⟩
  intro s2 h2
  simp [drainStack, h2]

theorem C5_stack_drain_witness :
    (drainStack { open_syslog initState 0 with
        stack_funcs := ["inner", "root"] }).syslog_lines
      = ({ open_syslog initState 0 with
            stack_funcs := ["inner", "root"] } : GuruState).syslog_lines
        ++ (if ({ open_syslog initState 0 with
                stack_funcs := ["inner", "root"] } : GuruState).last_log_message
              = "Stack trace follows:" then []
            else [⟨GURU_STACK, "Stack trace follows:"⟩])
        ++ frameLines ["inner", "root"] ∧
    (drainStack { open_syslog initState 0 with
        stack_funcs := ["inner", "root"] }).stack_funcs = ["root"] := by
  have h := C5_stack_drain
    { open_syslog initState 0 with stack_funcs := ["inner", "root"] }
    ["inner", "root"] "root" rfl rfl (by decide)
  exact ⟨h.1, h.2.2.2.1⟩

/-- Claim C6: consecutive log calls with identical message text put only
one line in the sink, whatever the two severities are: the second call is a
no-op, and when the sink is open and the text is fresh the pair appends
exactly the one line of the first call. -/
theorem C6_dedup_ignores_severity (s : GuruState) (m : String) (ty1 ty2 : Int) :
    logG (logG s m ty1) m ty2 = logG s m ty1 ∧
    (s.syslog_open = true → ¬ (m = s.last_log_message) →
      (logG (logG s m ty1) m ty2).syslog_lines = s.syslog_lines ++ [⟨ty1, m⟩]) := by
  have hkey : logG (logG s m ty1) m ty2 = logG s m ty1 := by
    by_cases ho : s.syslog_open = false
    · simp [logG, ho]
    · by_cases hm : m = s.last_log_message
      · simp [logG, ho, hm]
      · simp [logG, ho, hm]
  refine ⟨hkey, ?_⟩
  intro hopen hm
  rw [hkey, logG_append s m ty1 hopen hm]

theorem C6_dedup_ignores_severity_witness :
    logG (logG (open_syslog initState 0) "dup" GURU_WARN) "dup" GURU_ERROR
      = logG (open_syslog initState 0) "dup" GURU_WARN ∧
    (logG (logG (open_syslog initState 0) "dup" GURU_WARN) "dup" GURU_ERROR).syslog_lines
      = (open_syslog initState 0).syslog_lines ++ [⟨GURU_WARN, "dup"⟩] := by
  have h := C6_dedup_ignores_severity (open_syslog initState 0) "dup" GURU_WARN GURU_ERROR
  exact ⟨h.1, h.2 rfl (by decide)⟩

/-- Claim C7 counterexample: the claim says the handler disables all four
signals before doing any other work and only then maps the signal to its
phrase; in the source the switch that maps the signal runs first, so the
first action of the handler is the phrase computation, not a disable. -/
theorem C7_counterexample :
    interceptActions SIGSEGV
      = [SigAction.setPhrase "Segmentation fault.", SigAction.ignoreSig SIGABRT,
         SigAction.ignoreSig SIGSEGV, SigAction.ignoreSig SIGILL,
         SigAction.ignoreSig SIGFPE, SigAction.invokeHalt "Segmentation fault."] ∧
    ¬ ((interceptActions SIGSEGV).take 4
        = [SigAction.ignoreSig SIGABRT, SigAction.ignoreSig SIGSEGV,
           SigAction.ignoreSig SIGILL, SigAction.ignoreSig SIGFPE]) := by
  constructor
  · decide
  · decide

/-- Claim C7 (amended): on receipt of a signal the handler first maps the
signal to its fixed phrase (abort, segfault, illegal instruction,
floating-point exception, with a generic phrase for any other number), then
disables all four signal types, then calls the fatal halt path with that
phrase. -/
theorem C7_amended_signal_bridge (sig : Int) :
    interceptActions sig
      = [SigAction.setPhrase (sigPhrase sig), SigAction.ignoreSig SIGABRT,
         SigAction.ignoreSig SIGSEGV, SigAction.ignoreSig SIGILL,
         SigAction.ignoreSig SIGFPE, SigAction.invokeHalt (sigPhrase sig)] ∧
    sigPhrase SIGABRT = "Software requested abort." ∧
    sigPhrase SIGSEGV = "Segmentation fault." ∧
    sigPhrase SIGILL = "Illegal instruction." ∧
    sigPhrase SIGFPE = "Floating-point exception." ∧
    (sig ≠ SIGABRT → sig ≠ SIGSEGV → sig ≠ SIGILL → sig ≠ SIGFPE →
      sigPhrase sig = "Intercepted unknown signal.") ∧
    (∀ s : GuruState, intercept_signal s sig = halt s (sigPhrase sig)) := by
  refine ⟨rfl, by decide, by decide, by decide, by decide, ?_, fun s => rfl⟩
  intro h1 h2 h3 h4
  simp [sigPhrase, h1, h2, h3, h4]

theorem C7_amended_signal_bridge_witness :
    sigPhrase 2 = "Intercepted unknown signal." ∧
    interceptActions 2
      = [SigAction.setPhrase (sigPhrase 2), SigAction.ignoreSig SIGABRT,
         SigAction.ignoreSig SIGSEGV, SigAction.ignoreSig SIGILL,
         SigAction.ignoreSig SIGFPE, SigAction.invokeHalt (sigPhrase 2)] :=
  ⟨(C7_amended_signal_bridge 2).2.2.2.2.2.1
      (by decide) (by decide) (by decide) (by decide),
   (C7_amended_signal_bridge 2).1⟩

/-- Claim C8 counterexample: the claim says that for every nonfatal call
with an out-of-range severity and no cascade declared, the fixed warning is
logged and the original message is still logged.  With pressure already at
20 inside the window, the recursively issued warning itself trips the
cascade and halt never returns, so the original message never reaches the
log. -/
theorem C8_counterexample :
    ("boom" ∉ (nonfatal { initState with syslog_open := true, cascade_count := 20 }
        "boom" GURU_INFO 0).syslog_lines.map LogLine.msg) ∧
    (nonfatal { initState with syslog_open := true, cascade_count := 20 }
        "boom" GURU_INFO 0).syslog_lines.map LogLine.msg
      = [invalidSeverityMsg, "Software Failure, Halting Execution",
         "Cascade failure detected!"] := by
  have hwin : (0 : ℚ) - 0 ≤ 30 := by norm_num
  have h := nonfatal_invalid
    { initState with syslog_open := true, cascade_count := 20 } "boom" GURU_INFO 0
    (by decide) rfl
  rw [nonfatalWarn_trip _ 0 rfl rfl hwin (by decide)] at h
  rw [if_pos (by simp)] at h
  rw [h]
  constructor
  · decide
  · decide

/-- Claim C8 (amended): for a nonfatal call with a severity outside
Warning/Error/Critical and no cascade declared, provided the sink is open,
the message text differs from the fixed warning text and from the
previously logged text, and the recursively issued warning does not itself
trip the cascade, the fixed warning line is logged and the original message
is still logged right after it. -/
theorem C8_amended_invalid_severity (s : GuruState) (e : String) (ty : Int) (now : ℚ)
    (hw0 : cascadeWeight ty = 0)
    (hf : s.cascade_failure = false) (hc : s.control_lost = false)
    (hopen : s.syslog_open = true)
    (hlast : ¬ (invalidSeverityMsg = s.last_log_message))
    (he : ¬ (e = invalidSeverityMsg))
    (hnotrip : now - s.cascade_timer ≤ 30 → s.cascade_count + 1 ≤ 20) :
    (nonfatal s e ty now).syslog_lines
      = s.syslog_lines ++ [⟨GURU_WARN, invalidSeverityMsg⟩, ⟨ty, e⟩] ∧
    (nonfatal s e ty now).cascade_failure = false := by
  rw [nonfatal_invalid s e ty now hw0 hf]
  have hlogw := logG_append s invalidSeverityMsg GURU_WARN hopen hlast
  by_cases hwin : now - s.cascade_timer ≤ 30
  · rw [nonfatalWarn_acc s now hf hc hwin (hnotrip hwin), hlogw]
    rw [if_neg (by simp [hc])]
    rw [logG_append _ e ty (by simp [hopen]) (by simpa using he)]
    exact ⟨by simp, by simp [hf]⟩
  · rw [nonfatalWarn_reset s now hf hc hwin, hlogw]
    rw [if_neg (by simp [hc])]
    rw [logG_append _ e ty (by simp [hopen]) (by simpa using he)]
    exact ⟨by simp, by simp [hf]⟩

theorem C8_amended_invalid_severity_witness :
    (nonfatal (open_syslog initState 0) "boom" GURU_INFO 0).syslog_lines
      = (open_syslog initState 0).syslog_lines
        ++ [⟨GURU_WARN, invalidSeverityMsg⟩, ⟨GURU_INFO, "boom"⟩] ∧
    (nonfatal (open_syslog initState 0) "boom" GURU_INFO 0).cascade_failure = false := by
  have h := C8_amended_invalid_severity (open_syslog initState 0) "boom" GURU_INFO 0
    (by decide) rfl rfl rfl (by decide) (by decide) (fun _ => by decide)
  exact ⟨h.1, h.2⟩

/-- Claim C9: a nonfatal call with an out-of-range severity is not
cascade-neutral: the recursively issued warning is processed first as a
Warning-severity report, adding weight 1 to the pressure inside an open
window — which can itself trip the cascade — while the original message
contributes weight 0. -/
theorem C9_invalid_severity_cascade (s : GuruState) (e : String) (ty : Int) (now : ℚ)
    (hw0 : cascadeWeight ty = 0)
    (hf : s.cascade_failure = false) (hc : s.control_lost = false)
    (hwin : now - s.cascade_timer ≤ 30) :
    (s.cascade_count + 1 ≤ 20 →
      (nonfatal s e ty now).cascade_count = s.cascade_count + 1 ∧
      (nonfatal s e ty now).cascade_failure = false) ∧
    (s.cascade_count + 1 > 20 → s.dead_already = false →
      (nonfatal s e ty now).cascade_failure = true ∧
      (nonfatal s e ty now).halted
        = some (HaltOutcome.presenting "Cascade failure detected!")) := by
  rw [nonfatal_invalid s e ty now hw0 hf]
  constructor
  · intro hle
    rw [nonfatalWarn_acc s now hf hc hwin hle]
    rw [if_neg (by simp [hc])]
    exact ⟨by simp, by simp [hf]⟩
  · intro hgt hd
    rw [nonfatalWarn_trip s now hf hc hwin hgt]
    rw [if_pos (by simp)]
    refine ⟨by simp, ?_⟩
    rw [halt_presents]
    simp [hd]

theorem C9_invalid_severity_cascade_witness :
    (nonfatal (open_syslog initState 0) "oops" GURU_STACK 0).cascade_count = 1 ∧
    (nonfatal { initState with syslog_open := true, cascade_count := 20 }
        "oops" GURU_STACK 0).cascade_failure = true := by
  have h1 := C9_invalid_severity_cascade (open_syslog initState 0) "oops" GURU_STACK 0
    (by decide) rfl rfl
    (by rw [open_syslog_cascade_timer]; norm_num)
  have h2 := C9_invalid_severity_cascade
    { initState with syslog_open := true, cascade_count := 20 } "oops" GURU_STACK 0
    (by decide) rfl rfl (by show (0 : ℚ) - 0 ≤ 30; norm_num)
  exact ⟨(h1.1 (by decide)).1, (h2.2 (by decide) rfl).1⟩

/-- Claim C10 counterexample: the claim says close_syslog always writes
exactly two farewell lines before closing; when the immediately preceding
log line was already the first farewell text, deduplication suppresses it
and only one line is appended. -/
theorem C10_counterexample :
    (close_syslog (logG (open_syslog initState 0)
        "Guru system shutting down." GURU_INFO)).syslog_lines.length
      = (logG (open_syslog initState 0)
          "Guru system shutting down." GURU_INFO).syslog_lines.length + 1 := by
  decide

/-- Claim C10 (amended): whenever close_syslog is called with the sink open
and the previously logged text different from the first farewell line —
regardless of whether a cascade has been declared — it appends exactly the
two fixed farewell lines, closes the handle, and afterwards the sink is
unwritable; duplicate suppression can drop the first farewell line, and a
closed sink receives nothing. -/
theorem C10_amended_close_lines (s : GuruState)
    (hopen : s.syslog_open = true)
    (hlast : ¬ ("Guru system shutting down." = s.last_log_message)) :
    (close_syslog s).syslog_lines
      = s.syslog_lines ++ [⟨GURU_INFO, "Guru system shutting down."⟩,
                           ⟨GURU_INFO, "The rest is silence."⟩] ∧
    (close_syslog s).syslog_open = false ∧
    (∀ m ty, logG (close_syslog s) m ty = close_syslog s) := by
  have hstep : close_syslog s
      = { s with last_log_message := "The rest is silence.",
                 syslog_lines := s.syslog_lines
                   ++ [⟨GURU_INFO, "Guru system shutting down."⟩,
                       ⟨GURU_INFO, "The rest is silence."⟩],
                 syslog_open := false } := by
    have h1 := logG_append s "Guru system shutting down." GURU_INFO hopen hlast
    have h2 := logG_append
      ({ s with
          last_log_message := "Guru system shutting down."
          syslog_lines := s.syslog_lines
            ++ [⟨GURU_INFO, "Guru system shutting down."⟩] } : GuruState)
      "The rest is silence." GURU_INFO (by simp [hopen]) (by simp)
    simp only [close_syslog]
    rw [h1, h2]
    simp
  rw [hstep]
  refine ⟨rfl, rfl, ?_⟩
  intro m ty
  simp [logG]

theorem C10_amended_close_lines_witness :
    (close_syslog (open_syslog initState 0)).syslog_lines
      = (open_syslog initState 0).syslog_lines
        ++ [⟨GURU_INFO, "Guru system shutting down."⟩,
            ⟨GURU_INFO, "The rest is silence."⟩] ∧
    (close_syslog (open_syslog initState 0)).syslog_open = false := by
  have h := C10_amended_close_lines (open_syslog initState 0) rfl (by decide)
  exact ⟨h.1, h.2.1⟩

end Guru
